import Mathlib

set_option maxHeartbeats 1000000

/-!
Shallow embedding of the `vtkplotlib` repository's core components:

* `QtFigure` (src/vtkplotlib/figures/QtFigure.py) — the embedded-render-surface
  lifecycle manager: lazy construction of the VTK widget / render window /
  interactor, `show` with its rebind guard, `_re_init`, `_clean_up`, `close`,
  `closeEvent`, `update` and `__del__`.
* `process_color` (src/vtkplotlib/colors.py) — the color normalisation helper.
* `Lines.vertices` setter (src/vtkplotlib/plots/Lines.py) — point updates vs
  connectivity rebuilds.

VTK / Qt objects are identified by natural-number ids so that Python `is`
identity tests become decidable equalities.  Lazily constructed attributes are
`Option Nat` slots; the caching decorator `nuts_and_bolts.init_when_called` is
not under src/, so its cache-on-first-access / re-run-after-del behaviour is
modelled from the spec (section 4.1 LazyResource and section 9: decorator-wrapped
methods that replace themselves with cached instance state on first call).
Likewise `BaseFigure` (renderer/camera construction, lifecycle bookkeeping) is
not under src/ and is modelled from the spec's LifecycleStateMachine.
Native-layer side effects (`MakeCurrent`, `Finalize`, `RemoveRenderer`, ...)
are recorded in an event trace so that ordering claims are provable.
-/

/-- Observable events emitted by the lifecycle operations, in the order the
corresponding Python statements execute. -/
inductive FigEvent where
  | createWidget            -- QVTKRenderWindowInteractor(self)  (vtkWidget factory)
  | addWidgetToLayout       -- self.vl.addWidget(vtkWidget)      (vtkWidget factory)
  | addRenderer             -- self.renWin.AddRenderer(self.renderer)
  | setActiveCamera         -- self.renderer.SetActiveCamera(self.camera)
  | reInitBegin             -- entry of _re_init (the debug("re init") line)
  | insertWidgetAtRecorded  -- self.vl.insertWidget(self._vtkwidget_replace_index, ...)
  | makeCurrent             -- self.renWin.MakeCurrent()
  | recordIndex             -- self._vtkwidget_replace_index = self.vl.indexOf(...)
  | removeWidgetFromLayout  -- self.vl.removeWidget(self.vtkWidget)
  | finalizeWin             -- self.renWin.Finalize()
  | removeRenderer          -- self.renWin.RemoveRenderer(self.renderer)
  | delVtkWidget            -- del self.vtkWidget
  | delIren                 -- del self.iren
  | delRenWin               -- del self.renWin
  | render                  -- a redraw performed by BaseFigure.update
  | removeAllProps          -- self.renderer.RemoveAllViewProps()
  deriving DecidableEq, Repr

/-- Lifecycle states of the spec's LifecycleStateMachine (section 4.4).  The
Python source has no explicit state field; this bookkeeping is modelled from
the spec and is written only by the spec-modelled `BaseFigure` calls. -/
inductive LifeState where
  | UNINITIALIZED
  | BOUND
  | SHOWING
  | DETACHED
  | DESTROYED
  deriving DecidableEq, Repr

/-- Python exception kinds relevant to the embedded code paths. -/
inductive PyErr where
  | attributeError
  | typeError
  | valueError
  | runtimeError
  deriving DecidableEq, Repr

/-- State of one `QtFigure` instance.  Widget / window / interactor ids share
one `Nat` id space; a freshly constructed `QVTKRenderWindowInteractor` and the
render window and interactor it owns are identified with the same fresh id
(identity comparisons in the source only ever compare objects of one kind). -/
structure FigState where
  nextId : Nat                 -- fresh-id allocator for native objects
  vtkWidget : Option Nat       -- lazy slot: the QVTKRenderWindowInteractor
  renWin : Option Nat          -- lazy slot: self.vtkWidget.GetRenderWindow()
  iren : Option Nat            -- lazy slot: the interactor of the render window
  renderer : Nat               -- self.renderer (BaseFigure), stable identity
  camera : Nat                 -- self.camera (BaseFigure)
  activeCamera : Nat           -- the renderer's active camera reference
  rendererWindow : Option Nat  -- self.renderer.GetRenderWindow()
  layout : List Nat            -- contents of self.vl (widget ids, in order)
  replaceIndex : Option Int    -- self._vtkwidget_replace_index (none = attribute unset)
  visible : Bool               -- QWidget shown/hidden
  hasParent : Bool             -- self.parent() is not None
  lifecycle : LifeState        -- spec-modelled lifecycle bookkeeping
  props : List Nat             -- the renderer's view props
  events : List FigEvent       -- trace of native-layer side effects
  deriving DecidableEq, Repr

/-- Qt's `QVBoxLayout.indexOf`: index of the widget, `-1` when absent. -/
def qIndexOf (l : List Nat) (w : Nat) : Int :=
  match l.findIdx? (fun x => x == w) with
  | some i => (i : Int)
  | none => -1

/-- Qt's `QVBoxLayout.insertWidget i w`: inserts at index `i`; a negative or
out-of-range index appends at the end. -/
def qInsertWidget (i : Int) (w : Nat) (l : List Nat) : List Nat :=
  if i < 0 ∨ (l.length : Int) < i then l ++ [w]
  else l.take i.toNat ++ w :: l.drop i.toNat

/-- Lazy access to `self.vtkWidget` (src lines 266-270).  The factory creates a
`QVTKRenderWindowInteractor(self)` and appends it to the layout with
`self.vl.addWidget`.  Cache-on-first-access semantics modelled from the spec
(section 4.1 LazyResource), as `nuts_and_bolts.init_when_called` is outside src/. -/
def getVtkWidget (s : FigState) : Nat × FigState :=
  match s.vtkWidget with
  | some w => (w, s)
  | none =>
      let w := s.nextId
      (w, { s with
              nextId := w + 1
              vtkWidget := some w
              layout := s.layout ++ [w]
              events := s.events ++ [FigEvent.createWidget, FigEvent.addWidgetToLayout] })

/-- Lazy access to `self.renWin` (src lines 272-278): the factory returns
`self.vtkWidget.GetRenderWindow()`, which is the window owned by the widget
(identified with the widget's id). -/
def getRenWin (s : FigState) : Nat × FigState :=
  match s.renWin with
  | some r => (r, s)
  | none =>
      let p := getVtkWidget s
      (p.1, { p.2 with renWin := some p.1 })

/-- Lazy access to `self.iren` (src lines 280-286): the factory returns
`self.vtkWidget.GetRenderWindow().GetInteractor()`. -/
def getIren (s : FigState) : Nat × FigState :=
  match s.iren with
  | some i => (i, s)
  | none =>
      let p := getVtkWidget s
      (p.1, { p.2 with iren := some p.1 })

/-- `renWin.AddRenderer(self.renderer)`: VTK registers the renderer with the
window and sets the renderer's render window to it. -/
def addRendererOp (s : FigState) (win : Nat) : FigState :=
  { s with rendererWindow := some win, events := s.events ++ [FigEvent.addRenderer] }

/-- `renWin.RemoveRenderer(self.renderer)`: clears the renderer's render-window
reference when the renderer was registered with this window; otherwise the
reference is untouched. -/
def removeRendererOp (s : FigState) (win : Nat) : FigState :=
  { s with
      rendererWindow := if s.rendererWindow = some win then none else s.rendererWindow
      events := s.events ++ [FigEvent.removeRenderer] }

/-- Modelled from the spec: `BaseFigure.__init__` (not under src/) constructs
the Renderer, whose identity is stable for the whole object lifetime, and its
camera (spec section 3, Invariant I1). -/
def baseFigureInit (s : FigState) : FigState :=
  { s with
      renderer := s.nextId
      camera := s.nextId + 1
      activeCamera := s.nextId + 1
      nextId := s.nextId + 2 }

/-- Modelled from the spec: `BaseFigure.show` (not under src/) transitions the
LifecycleStateMachine to SHOWING (spec section 4.4). -/
def baseFigureShow (s : FigState) (_block : Bool) : FigState :=
  { s with lifecycle := LifeState.SHOWING }

/-- Modelled from the spec: `BaseFigure.close` (not under src/) transitions the
LifecycleStateMachine to DESTROYED (spec section 4.4). -/
def baseFigureClose (s : FigState) : FigState :=
  { s with lifecycle := LifeState.DESTROYED }

/-- Modelled from the spec: `BaseFigure.update` (not under src/) refreshes the
display; per spec section 4.4 this redraw side effect is available in SHOWING
only, and the call is a harmless no-op in the other states. -/
def baseFigureUpdate (s : FigState) : FigState :=
  if s.lifecycle = LifeState.SHOWING then
    { s with events := s.events ++ [FigEvent.render] }
  else s

/-- `QtFigure.__init__` (src lines 195-233): touches the lazy `vtkWidget`,
`renWin` and `iren` slots in that order, runs `BaseFigure.__init__`, and ends
with `self.renWin.AddRenderer(self.renderer)`.  Silencer attachment, the
interactor style object and `setLayout` have no modelled state. -/
def initFig (hasParent : Bool) : FigState :=
  let s : FigState :=
    { nextId := 0, vtkWidget := none, renWin := none, iren := none
      renderer := 0, camera := 0, activeCamera := 0, rendererWindow := none
      layout := [], replaceIndex := none, visible := false, hasParent := hasParent
      lifecycle := LifeState.UNINITIALIZED, props := [], events := [] }
  let p1 := getVtkWidget s          -- line 210: self.vtkWidget
  let p2 := getRenWin p1.2          -- line 214: self.renWin
  let p3 := getIren p2.2            -- line 215: iren = self.iren
  let s := baseFigureInit p3.2      -- line 227: BaseFigure.__init__(self, name)
  let p4 := getRenWin s
  let s := addRendererOp p4.2 p4.1  -- line 231: self.renWin.AddRenderer(self.renderer)
  { s with lifecycle := LifeState.BOUND }

/-- `QtFigure._re_init` (src lines 236-250).  Line 244 touches `vtkWidget`,
`renWin` and `iren` (recreating them through the lazy factories when they were
deleted), line 245 restores the saved renderer (same object, so no state
change), line 246 re-adds the renderer to the window, line 247 re-applies the
active camera, and lines 248-249 insert the widget at the recorded index only
when it is missing from the layout.  When that branch runs with
`_vtkwidget_replace_index` never assigned, Python raises `AttributeError`. -/
def re_init (s : FigState) : Except PyErr FigState :=
  let s := { s with events := s.events ++ [FigEvent.reInitBegin] }
  let p1 := getVtkWidget s
  let w := p1.1
  let p2 := getRenWin p1.2
  let rw := p2.1
  let p3 := getIren p2.2
  let s := p3.2
  let s := addRendererOp s rw
  let s := { s with activeCamera := s.camera, events := s.events ++ [FigEvent.setActiveCamera] }
  if w ∈ s.layout then Except.ok s
  else
    match s.replaceIndex with
    | some i =>
        Except.ok { s with
                      layout := qInsertWidget i w s.layout
                      events := s.events ++ [FigEvent.insertWidgetAtRecorded] }
    | none => Except.error PyErr.attributeError

/-- `QtFigure._clean_up` (src lines 305-313), the teardown body: MakeCurrent,
record the widget's layout index, remove the widget from the layout, finalize
the render window, remove the renderer from it, and delete the three cached
lazy attributes (in the written order vtkWidget, iren, renWin). -/
def clean_up (s : FigState) : FigState :=
  let p := getRenWin s
  let rw := p.1
  let s := { p.2 with events := p.2.events ++ [FigEvent.makeCurrent] }
  let q := getVtkWidget s
  let w := q.1
  let s := q.2
  let s := { s with
               replaceIndex := some (qIndexOf s.layout w)
               events := s.events ++ [FigEvent.recordIndex] }
  let s := { s with
               layout := s.layout.erase w
               events := s.events ++ [FigEvent.removeWidgetFromLayout] }
  let s := { s with events := s.events ++ [FigEvent.finalizeWin] }
  let s := removeRendererOp s rw
  { s with
      vtkWidget := none, iren := none, renWin := none
      events := s.events ++ [FigEvent.delVtkWidget, FigEvent.delIren, FigEvent.delRenWin] }

/-- `QtFigure.show` (src lines 253-263): lazily gets `self.renWin`, runs
`_re_init` exactly when `self.renWin is not self.renderer.GetRenderWindow()`,
then shows the QWidget, defaults `block` to `self.parent() is None`, and runs
`BaseFigure.show(block)` (the `qapp.exec_` event loop is external). -/
def pyshow (s : FigState) (block : Option Bool) : Except PyErr FigState :=
  let p := getRenWin s
  let rw := p.1
  let s1 := p.2
  let rest : FigState → FigState := fun s2 =>
    let s3 := { s2 with visible := true }            -- QWidget.show(self)
    baseFigureShow s3 (block.getD (!s2.hasParent))   -- BaseFigure.show(self, block)
  if s1.rendererWindow = some rw then Except.ok (rest s1)
  else Except.map rest (re_init s1)

/-- `QtFigure.close` (src lines 294-297): `BaseFigure.close`, `QWidget.close`
(hides the widget; close-event delivery belongs to the external toolkit), then
`self._clean_up()`.  No statement on this path can raise. -/
def pyclose (s : FigState) : FigState :=
  let s := baseFigureClose s
  let s := { s with visible := false }
  clean_up s

/-- `QtFigure.closeEvent` (src lines 318-319): runs `self._clean_up()`.  The
transition to DETACHED is the spec's LifecycleStateMachine bookkeeping for the
container being detached (spec section 4.4). -/
def pycloseEvent (s : FigState) : FigState :=
  clean_up { s with lifecycle := LifeState.DETACHED, visible := false }

/-- `QtFigure.update` (src lines 288-292): `BaseFigure.update`, then
`QWidget.update` and `qapp.processEvents`, which belong to the external
toolkit and have no modelled state. -/
def pyupdate (s : FigState) : FigState :=
  baseFigureUpdate s

/-- `QtFigure.__del__` (src lines 322-328): tries
`self.renderer.RemoveAllViewProps()` and swallows `AttributeError` and
`TypeError` only.  The native call is external, so its outcome is an oracle
argument: `none` means it succeeded (clearing the props), `some e` means it
raised `e`. -/
def pydel (s : FigState) (nativeOutcome : Option PyErr) : Except PyErr FigState :=
  match nativeOutcome with
  | none => Except.ok { s with props := [], events := s.events ++ [FigEvent.removeAllProps] }
  | some PyErr.attributeError => Except.ok s
  | some PyErr.typeError => Except.ok s
  | some e => Except.error e

/-!
Embedding of `process_color` (src/vtkplotlib/colors.py, lines 39-90).  A numpy
array is modelled as a dtype tag plus a list of rational values; the string
branches (named colors and hex strings, resolved through matplotlib to float
triples) are outside the iterable/None cases the function's numeric logic
handles, so the input is taken post-`np.asarray`.
-/

/-- Dtype of the modelled numpy array: `color.dtype == int` distinguishes the
default integer dtype from float dtypes. -/
inductive NpDtype where
  | int
  | float
  deriving DecidableEq, Repr

/-- A numpy 1-D array: dtype tag plus values. -/
structure NpArr where
  dtype : NpDtype
  vals : List ℚ
  deriving DecidableEq, Repr

/-- Maximum of the values, as `color.max()` computes it on a non-empty array
(numpy raises on an empty array; the `0` seed is never relevant to theorems,
which assume non-empty input). -/
def npMax (l : List ℚ) : ℚ :=
  l.foldl max (l.headD 0)

/-- `process_color(color, opacity)` (src lines 39-90): scales by 255 exactly
when the array has integer dtype and its maximum exceeds 1 (also scaling a
supplied opacity), splits off an alpha component from a length-4 color, and
lets a supplied opacity override the alpha taken from the color. -/
def process_color (color : Option NpArr) (opacity : Option ℚ) :
    Option NpArr × Option ℚ :=
  match color with
  | none => (none, opacity)
  | some c0 =>
      let scale := c0.dtype = NpDtype.int ∧ 1 < npMax c0.vals
      let c1 := if scale then
                  { dtype := NpDtype.float, vals := c0.vals.map (fun v => v / 255) }
                else c0
      let op1 := if scale then opacity.map (fun o => o / 255) else opacity
      let splitAlpha := c1.vals.length = 4
      let c2 := if splitAlpha then { dtype := c1.dtype, vals := c1.vals.take 3 } else c1
      let opacity_out :=
        match op1 with
        | some o => some o
        | none => if splitAlpha then some (c1.vals.getD 3 0) else none
      (some c2, opacity_out)

/-!
Embedding of the `Lines.vertices` setter (src/vtkplotlib/plots/Lines.py,
lines 142-160).  The polydata holds the flattened point coordinates (the
`reshape((-1, 3))` view of the vertex array) and the line-connectivity cells.
An input vertex array is its shape together with its flattened values.
-/

/-- Polydata state touched by the `vertices` setter. -/
structure PolyData where
  points : List ℚ          -- self.polydata.points (flattened coordinates)
  lines : List (List Nat)  -- self.polydata.lines (connectivity cells)
  deriving DecidableEq, Repr

/-- The slice of a `Lines` plot object the `vertices` setter reads and writes. -/
structure LinesPlot where
  shape : List Nat    -- self.shape
  join_ends : Bool    -- self.join_ends
  polydata : PolyData
  deriving DecidableEq, Repr

/-- Rows of `np.arange(n).reshape((-1, m))`: row `i` is
`[i*m, ..., i*m + m - 1]`, with `n / m` rows (numpy requires `m` to divide
`n`; the theorems only use such shapes). -/
def arangeRows (n m : Nat) : List (List Nat) :=
  (List.range (n / m)).map (fun i => (List.range m).map (fun j => i * m + j))

/-- Modelled from the spec: `join_line_ends` (vtkplotlib.plots.polydata, not
under src/) closes each polyline by joining its first and last points into a
loop (Lines docstring: "If true, join the 1st and last points to form a closed
loop"), i.e. each connectivity row gains its first vertex index at the end. -/
def join_line_ends (args : List (List Nat)) : List (List Nat) :=
  args.map (fun row => row ++ [row.headD 0])

/-- The connectivity the setter builds from a shape:
`args = np.arange(np.prod(shape[:-1])).reshape((-1, shape[-2]))`, closed with
`join_line_ends` when `join_ends` is set. -/
def linesConnectivity (joinEnds : Bool) (shape : List Nat) : List (List Nat) :=
  let args := arangeRows shape.dropLast.prod (shape.getD (shape.length - 2) 1)
  if joinEnds then join_line_ends args else args

/-- The `Lines.vertices` setter (src lines 146-160): always stores the
flattened coordinates into `polydata.points`; returns early when the new shape
equals the stored shape, and otherwise stores the new shape and rebuilds
`polydata.lines` from it. -/
def set_vertices (p : LinesPlot) (shape : List Nat) (vals : List ℚ) : LinesPlot :=
  let p1 := { p with polydata := { p.polydata with points := vals } }
  if shape = p1.shape then p1
  else
    { p1 with
        shape := shape
        polydata := { p1.polydata with lines := linesConnectivity p1.join_ends shape } }

/-! Theorems settling the claims. -/

/-- The event trace of `close()` on a freshly constructed figure. -/
def closeTrace : List FigEvent := (pyclose (initFig false)).events

/-- C1 (counterexample): on a concrete `close()` invocation the claimed
teardown order (interactor-detach before renderer-removed before
surface-finalize) is violated: `_clean_up` finalizes the window first,
removes the renderer second, and releases the interactor (the `del`) last. -/
theorem qtfig_teardown_order_cex :
    ¬ (closeTrace.findIdx (fun e => e == FigEvent.delIren) <
         closeTrace.findIdx (fun e => e == FigEvent.removeRenderer) ∧
       closeTrace.findIdx (fun e => e == FigEvent.removeRenderer) <
         closeTrace.findIdx (fun e => e == FigEvent.finalizeWin)) := by
  decide

/-- C1 (amended): for every `close()` on a figure whose lazy widget/window
slots are populated, the teardown steps occur in the source order
MakeCurrent, record-index, remove-widget-from-layout, surface-finalize,
renderer-removed, attribute deletion — so surface-finalize strictly precedes
renderer-removed, which strictly precedes the interactor release. -/
theorem qtfig_teardown_order (s : FigState) (w rw : Nat)
    (hw : s.vtkWidget = some w) (hr : s.renWin = some rw) :
    (pyclose s).events =
      s.events ++ [FigEvent.makeCurrent, FigEvent.recordIndex,
        FigEvent.removeWidgetFromLayout, FigEvent.finalizeWin, FigEvent.removeRenderer,
        FigEvent.delVtkWidget, FigEvent.delIren, FigEvent.delRenWin] ∧
    List.Sublist [FigEvent.finalizeWin, FigEvent.removeRenderer, FigEvent.delIren]
      [FigEvent.makeCurrent, FigEvent.recordIndex,
        FigEvent.removeWidgetFromLayout, FigEvent.finalizeWin, FigEvent.removeRenderer,
        FigEvent.delVtkWidget, FigEvent.delIren, FigEvent.delRenWin] := by
  constructor
  · simp [pyclose, baseFigureClose, clean_up, getRenWin, getVtkWidget,
      removeRendererOp, hw, hr, List.append_assoc]
  · decide

/-- C1 (witness): the amended ordering at a concrete freshly built figure. -/
theorem qtfig_teardown_order_witness :
    (initFig false).vtkWidget = some 0 ∧ (initFig false).renWin = some 0 ∧
    ((pyclose (initFig false)).events =
      (initFig false).events ++ [FigEvent.makeCurrent, FigEvent.recordIndex,
        FigEvent.removeWidgetFromLayout, FigEvent.finalizeWin, FigEvent.removeRenderer,
        FigEvent.delVtkWidget, FigEvent.delIren, FigEvent.delRenWin] ∧
     List.Sublist [FigEvent.finalizeWin, FigEvent.removeRenderer, FigEvent.delIren]
      [FigEvent.makeCurrent, FigEvent.recordIndex,
        FigEvent.removeWidgetFromLayout, FigEvent.finalizeWin, FigEvent.removeRenderer,
        FigEvent.delVtkWidget, FigEvent.delIren, FigEvent.delRenWin]) :=
  ⟨by decide, by decide,
    qtfig_teardown_order (initFig false) 0 0 (by decide) (by decide)⟩

/-- C2 (counterexample): `close()` is not idempotent — a second `close()` on a
destroyed figure changes the state (the lazy accessors inside `_clean_up`
recreate a fresh surface, which is appended to the layout and finalized
again), so it is not a no-op. -/
theorem qtfig_close_idempotent_cex :
    pyclose (pyclose (initFig false)) ≠ pyclose (initFig false) := by
  decide

/-- C2 (amended): a second `close()` after the figure is destroyed raises no
error (the path is total) and ends with the same observable slot state —
widget/window/interactor slots cleared, hidden, DESTROYED — but it is not a
no-op: the lazy accessors allocate a fresh surface (`nextId` advances) which
is immediately torn down again (a second create/finalize pair in the trace). -/
theorem qtfig_close_after_destroyed (s : FigState)
    (h1 : s.vtkWidget = none) (h2 : s.renWin = none) (h3 : s.iren = none)
    (_h4 : s.lifecycle = LifeState.DESTROYED) (h5 : s.rendererWindow = none) :
    (pyclose s).lifecycle = LifeState.DESTROYED ∧
    (pyclose s).vtkWidget = none ∧ (pyclose s).renWin = none ∧
    (pyclose s).iren = none ∧ (pyclose s).visible = false ∧
    (pyclose s).nextId = s.nextId + 1 ∧
    (pyclose s).events = s.events ++
      [FigEvent.createWidget, FigEvent.addWidgetToLayout, FigEvent.makeCurrent,
       FigEvent.recordIndex, FigEvent.removeWidgetFromLayout, FigEvent.finalizeWin,
       FigEvent.removeRenderer, FigEvent.delVtkWidget, FigEvent.delIren,
       FigEvent.delRenWin] := by
  simp [pyclose, baseFigureClose, clean_up, getRenWin, getVtkWidget,
    removeRendererOp, h1, h2, h3, h5, List.append_assoc]

/-- C2 (witness): the amended statement at the concrete state reached by the
first `close()` of a fresh figure. -/
theorem qtfig_close_after_destroyed_witness :
    ((pyclose (initFig false)).vtkWidget = none ∧
     (pyclose (initFig false)).renWin = none ∧
     (pyclose (initFig false)).iren = none ∧
     (pyclose (initFig false)).lifecycle = LifeState.DESTROYED ∧
     (pyclose (initFig false)).rendererWindow = none) ∧
    ((pyclose (pyclose (initFig false))).lifecycle = LifeState.DESTROYED ∧
     (pyclose (pyclose (initFig false))).vtkWidget = none ∧
     (pyclose (pyclose (initFig false))).renWin = none ∧
     (pyclose (pyclose (initFig false))).iren = none ∧
     (pyclose (pyclose (initFig false))).visible = false ∧
     (pyclose (pyclose (initFig false))).nextId = (pyclose (initFig false)).nextId + 1 ∧
     (pyclose (pyclose (initFig false))).events = (pyclose (initFig false)).events ++
      [FigEvent.createWidget, FigEvent.addWidgetToLayout, FigEvent.makeCurrent,
       FigEvent.recordIndex, FigEvent.removeWidgetFromLayout, FigEvent.finalizeWin,
       FigEvent.removeRenderer, FigEvent.delVtkWidget, FigEvent.delIren,
       FigEvent.delRenWin]) :=
  ⟨⟨by decide, by decide, by decide, by decide, by decide⟩,
    qtfig_close_after_destroyed (pyclose (initFig false))
      (by decide) (by decide) (by decide) (by decide) (by decide)⟩

/-- C3 (confirmed): show, then detach (the close-event teardown removes the
surface from the layout and clears the lazy slots), then show again: the
second `show` rebinds through `_re_init`, so the renderer's current render
window is again the live surface (`is_current` restored), the Renderer object
is the same, and the RenderSurface identity differs (a freshly constructed
window). -/
theorem qtfig_roundtrip (s : FigState) (rw : Nat)
    (hw : s.vtkWidget = some rw) (hr : s.renWin = some rw)
    (hcur : s.rendererWindow = some rw) (hfresh : rw < s.nextId) :
    ∃ s2, ((pyshow s none).bind fun s1 => pyshow (pycloseEvent s1) none) = Except.ok s2 ∧
      s2.renWin = some s.nextId ∧
      s2.rendererWindow = some s.nextId ∧
      s2.renderer = s.renderer ∧
      s.nextId ≠ rw := by
  simp [pyshow, pycloseEvent, clean_up, re_init, getRenWin, getVtkWidget, getIren,
    addRendererOp, removeRendererOp, baseFigureShow, baseFigureClose, Except.map,
    Except.bind, hw, hr, hcur]
  omega

/-- C3 (witness): the round trip on a concrete freshly built figure. -/
theorem qtfig_roundtrip_witness :
    ((initFig false).vtkWidget = some 0 ∧ (initFig false).renWin = some 0 ∧
     (initFig false).rendererWindow = some 0 ∧ 0 < (initFig false).nextId) ∧
    (∃ s2, ((pyshow (initFig false) none).bind fun s1 =>
        pyshow (pycloseEvent s1) none) = Except.ok s2 ∧
      s2.renWin = some (initFig false).nextId ∧
      s2.rendererWindow = some (initFig false).nextId ∧
      s2.renderer = (initFig false).renderer ∧
      (initFig false).nextId ≠ 0) :=
  ⟨⟨by decide, by decide, by decide, by decide⟩,
    qtfig_roundtrip (initFig false) 0 (by decide) (by decide) (by decide) (by decide)⟩

/-- C4 (counterexample): accessing the surface accessor (`vtkWidget`) on a
container that already holds a live bound surface does not signal any error:
it returns the cached surface and leaves the state entirely unchanged. -/
theorem qtfig_bind_bound_cex :
    (initFig false).vtkWidget = some 0 ∧
    getVtkWidget (initFig false) = (0, initFig false) := by
  decide

/-- C4 (amended): invoking the surface accessor on a container that already
holds a live bound surface returns the existing surface with the container
state unchanged — the factory is not re-run and no error is signaled (there is
no ReentrantBindError in the code; re-entrant access is absorbed by the lazy
cache). -/
theorem qtfig_bind_cached (s : FigState) (w : Nat) (h : s.vtkWidget = some w) :
    getVtkWidget s = (w, s) := by
  simp [getVtkWidget, h]

/-- C4 (witness): the cached-surface access on a concrete bound figure. -/
theorem qtfig_bind_cached_witness :
    (initFig false).vtkWidget = some 0 ∧ getVtkWidget (initFig false) = (0, initFig false) :=
  ⟨by decide, qtfig_bind_cached (initFig false) 0 (by decide)⟩

/-- C5 (confirmed): `show()` runs the rebind (`_re_init`) exactly when the
renderer's current render window is not (identity) the figure's render
surface.  When it is current, `show` only makes the widget visible and
transitions to SHOWING, appending no native events; when it is not current,
`show` performs the rebind (the re-init trace appears) and re-establishes
`is_current`. -/
theorem qtfig_show_rebind_iff (s : FigState) (w : Nat) (b : Option Bool)
    (hw : s.vtkWidget = some w) (hr : s.renWin = some w) (hi : s.iren = some w)
    (hl : w ∈ s.layout) :
    (s.rendererWindow = some w →
      pyshow s b =
        Except.ok (baseFigureShow { s with visible := true } (b.getD (!s.hasParent)))) ∧
    (s.rendererWindow ≠ some w →
      ∃ s', pyshow s b = Except.ok s' ∧
        s'.events = s.events ++
          [FigEvent.reInitBegin, FigEvent.addRenderer, FigEvent.setActiveCamera] ∧
        s'.rendererWindow = some w ∧
        s'.visible = true ∧
        s'.lifecycle = LifeState.SHOWING) := by
  constructor
  · intro hcur
    simp [pyshow, getRenWin, hr, hcur]
  · intro hncur
    simp [pyshow, re_init, getRenWin, getVtkWidget, getIren, addRendererOp,
      baseFigureShow, Except.map, hw, hr, hi, hl, hncur]

/-- C5 (witness): on a concrete freshly built figure the surface is current,
so `show` takes the no-rebind branch. -/
theorem qtfig_show_rebind_iff_witness :
    ((initFig false).vtkWidget = some 0 ∧ (initFig false).renWin = some 0 ∧
     (initFig false).iren = some 0 ∧
     0 ∈ (initFig false).layout ∧ (initFig false).rendererWindow = some 0) ∧
    pyshow (initFig false) none =
      Except.ok (baseFigureShow { initFig false with visible := true }
        ((none : Option Bool).getD (!(initFig false).hasParent))) :=
  ⟨⟨by decide, by decide, by decide, by decide, by decide⟩,
    (qtfig_show_rebind_iff (initFig false) 0 none
      (by decide) (by decide) (by decide) (by decide)).1 (by decide)⟩

/-- A detached figure embedded in a larger window: the lazy slots were cleared
by the previous detach (`_clean_up` deleted them after recording slot index 0),
and the container's layout still holds another widget (id 4, e.g. a GUI
element added alongside the figure).  Ids below 5 are in use. -/
def detachedWithExtra : FigState :=
  { nextId := 5, vtkWidget := none, renWin := none, iren := none
    renderer := 1, camera := 2, activeCamera := 2, rendererWindow := none
    layout := [4], replaceIndex := some 0, visible := false, hasParent := true
    lifecycle := LifeState.DETACHED, props := [], events := [] }

/-- C6 (counterexample): rebinding the detached figure whose recorded slot
index is 0 ends with the recreated surface widget (id 5) at layout index 1 —
the end of the layout — not at the recorded index 0: the lazy factory's
`addWidget` appends the widget, so the `insertWidget` branch guarded by
`indexOf == -1` is skipped. -/
theorem qtfig_rebind_slot_cex :
    Except.map (fun s' => (qIndexOf s'.layout 5, s'.replaceIndex)) (re_init detachedWithExtra) =
      Except.ok ((1 : Int), some (0 : Int)) ∧
    detachedWithExtra.replaceIndex = some 0 := by
  constructor
  · rfl
  · rfl

/-- C6 (amended): when rebinding after a standard detach (which cleared the
widget slot), the recreated surface widget is appended to the end of the
container's layout by the lazy factory's `addWidget`, not re-inserted at the
recorded slot index; the renderer's active-camera reference is re-applied and
the renderer is re-added to the new window, so camera state survives the
rebind. -/
theorem qtfig_rebind_appends (s : FigState)
    (h1 : s.vtkWidget = none) (h2 : s.renWin = none) (h3 : s.iren = none) :
    ∃ s', re_init s = Except.ok s' ∧
      s'.layout = s.layout ++ [s.nextId] ∧
      s'.vtkWidget = some s.nextId ∧
      s'.activeCamera = s.camera ∧
      s'.rendererWindow = some s.nextId := by
  simp [re_init, getVtkWidget, getRenWin, getIren, addRendererOp, h1, h2, h3]

/-- C6 (witness): the amended rebind behaviour at the concrete detached
figure. -/
theorem qtfig_rebind_appends_witness :
    (detachedWithExtra.vtkWidget = none ∧ detachedWithExtra.renWin = none ∧
     detachedWithExtra.iren = none) ∧
    (∃ s', re_init detachedWithExtra = Except.ok s' ∧
      s'.layout = detachedWithExtra.layout ++ [detachedWithExtra.nextId] ∧
      s'.vtkWidget = some detachedWithExtra.nextId ∧
      s'.activeCamera = detachedWithExtra.camera ∧
      s'.rendererWindow = some detachedWithExtra.nextId) :=
  ⟨⟨by decide, by decide, by decide⟩,
    qtfig_rebind_appends detachedWithExtra (by decide) (by decide) (by decide)⟩

/-- C7 (confirmed, spec-modelled): `update()` is gated on the lifecycle state.
While the figure is DETACHED or DESTROYED, `update()` returns the state
unchanged — no exception (the function is total) and no redraw event; the
redraw happens in SHOWING only. -/
theorem qtfig_update_gated (s : FigState) :
    (s.lifecycle = LifeState.DETACHED ∨ s.lifecycle = LifeState.DESTROYED →
      pyupdate s = s) ∧
    (s.lifecycle = LifeState.SHOWING →
      pyupdate s = { s with events := s.events ++ [FigEvent.render] }) := by
  constructor
  · rintro (h | h) <;> simp [pyupdate, baseFigureUpdate, h]
  · intro h
    simp [pyupdate, baseFigureUpdate, h]

/-- C7 (witness): `update()` after `close()` on a concrete figure is a no-op
on the DESTROYED state. -/
theorem qtfig_update_gated_witness :
    (pyclose (initFig false)).lifecycle = LifeState.DESTROYED ∧
    pyupdate (pyclose (initFig false)) = pyclose (initFig false) :=
  ⟨by decide, (qtfig_update_gated (pyclose (initFig false))).1 (Or.inr (by decide))⟩

/-- C8 (counterexample): the destructor does not swallow every error raised by
the native layer — the `except` clause names only `AttributeError` and
`TypeError`, so a `RuntimeError` raised by `RemoveAllViewProps` escapes
`__del__`. -/
theorem qtfig_del_escape_cex :
    pydel (initFig false) (some PyErr.runtimeError) = Except.error PyErr.runtimeError := by
  rfl

/-- C8 (amended): destructor-time cleanup only performs the best-effort
removal of all props from the renderer, and swallows exactly `AttributeError`
and `TypeError` (the Python-2 `RemoveAllViewProps is None` artifacts); any
other exception raised by the native call propagates out of the destructor. -/
theorem qtfig_del_swallows (s : FigState) (e : PyErr)
    (h1 : e ≠ PyErr.attributeError) (h2 : e ≠ PyErr.typeError) :
    pydel s none =
      Except.ok { s with props := [], events := s.events ++ [FigEvent.removeAllProps] } ∧
    pydel s (some PyErr.attributeError) = Except.ok s ∧
    pydel s (some PyErr.typeError) = Except.ok s ∧
    pydel s (some e) = Except.error e := by
  refine ⟨rfl, rfl, rfl, ?_⟩
  cases e with
  | attributeError => exact absurd rfl h1
  | typeError => exact absurd rfl h2
  | valueError => rfl
  | runtimeError => rfl

/-- C8 (witness): the swallowing behaviour at a concrete figure with a
concrete escaping error kind. -/
theorem qtfig_del_swallows_witness :
    (PyErr.runtimeError ≠ PyErr.attributeError ∧ PyErr.runtimeError ≠ PyErr.typeError) ∧
    (pydel (initFig false) none =
      Except.ok { initFig false with
                    props := [], events := (initFig false).events ++ [FigEvent.removeAllProps] } ∧
     pydel (initFig false) (some PyErr.attributeError) = Except.ok (initFig false) ∧
     pydel (initFig false) (some PyErr.typeError) = Except.ok (initFig false) ∧
     pydel (initFig false) (some PyErr.runtimeError) = Except.error PyErr.runtimeError) :=
  ⟨⟨by decide, by decide⟩,
    qtfig_del_swallows (initFig false) PyErr.runtimeError (by decide) (by decide)⟩

/-- C9 (confirmed): `process_color` divides the color values (and a supplied
opacity) by 255 exactly when the array has integer dtype and its maximum
exceeds 1; a float-dtype color is returned unscaled even when entries exceed
1 (only the length-4 alpha split applies); and a `None` color yields a `None`
color output with the opacity passed through. -/
theorem process_color_spec (c : NpArr) (op : Option ℚ) :
    process_color none op = (none, op) ∧
    (c.dtype = NpDtype.float →
      process_color (some c) op =
        (some (if c.vals.length = 4 then { dtype := c.dtype, vals := c.vals.take 3 } else c),
         match op with
         | some o => some o
         | none => if c.vals.length = 4 then some (c.vals.getD 3 0) else none)) ∧
    (c.dtype = NpDtype.int → npMax c.vals ≤ 1 →
      process_color (some c) op =
        (some (if c.vals.length = 4 then { dtype := c.dtype, vals := c.vals.take 3 } else c),
         match op with
         | some o => some o
         | none => if c.vals.length = 4 then some (c.vals.getD 3 0) else none)) ∧
    (c.dtype = NpDtype.int → 1 < npMax c.vals →
      process_color (some c) op =
        (some { dtype := NpDtype.float,
                vals := if c.vals.length = 4 then (c.vals.map (fun v => v / 255)).take 3
                        else c.vals.map (fun v => v / 255) },
         match op with
         | some o => some (o / 255)
         | none =>
             if c.vals.length = 4 then some ((c.vals.map (fun v => v / 255)).getD 3 0)
             else none)) := by
  refine ⟨rfl, ?_, ?_, ?_⟩
  · intro h
    cases op <;> by_cases hl : c.vals.length = 4 <;>
      simp [process_color, h, hl]
  · intro h hle
    have hnot : ¬ (1 : ℚ) < npMax c.vals := not_lt.mpr hle
    cases op <;> by_cases hl : c.vals.length = 4 <;>
      simp [process_color, h, hl, hnot]
  · intro h hgt
    cases op <;> by_cases hl : c.vals.length = 4 <;>
      simp [process_color, h, hl, hgt]

/-- C9 (witness): a float-dtype color with an entry greater than 1 passes
through unscaled. -/
theorem process_color_spec_witness :
    NpArr.dtype { dtype := NpDtype.float, vals := [2, 0, 0] } = NpDtype.float ∧
    process_color (some { dtype := NpDtype.float, vals := [2, 0, 0] }) none =
      (some { dtype := NpDtype.float, vals := [2, 0, 0] }, none) :=
  ⟨rfl, by
    have h := (process_color_spec { dtype := NpDtype.float, vals := [2, 0, 0] } none).2.1 rfl
    simpa using h⟩

/-- A concrete `Lines` plot: two 3-D points, closed loop, connectivity built
for shape `[2, 3]`. -/
def samplePlot : LinesPlot :=
  { shape := [2, 3], join_ends := true
    polydata := { points := [0, 0, 0, 1, 1, 1], lines := [[0, 1, 0]] } }

/-- C10 (confirmed): the `Lines.vertices` setter always stores the new point
coordinates; when the new shape equals the stored shape it leaves the
line-connectivity cells (and the stored shape) unchanged, and when the shape
differs it rebuilds the connectivity (with the `join_ends` closing) from the
new shape. -/
theorem lines_vertices_spec (p : LinesPlot) (shape : List Nat) (vals : List ℚ) :
    (set_vertices p shape vals).polydata.points = vals ∧
    (shape = p.shape →
      (set_vertices p shape vals).polydata.lines = p.polydata.lines ∧
      (set_vertices p shape vals).shape = p.shape) ∧
    (shape ≠ p.shape →
      set_vertices p shape vals =
        { shape := shape, join_ends := p.join_ends,
          polydata := { points := vals,
                        lines := linesConnectivity p.join_ends shape } }) := by
  refine ⟨?_, ?_, ?_⟩
  · by_cases h : shape = p.shape <;> simp [set_vertices, h]
  · intro h
    simp [set_vertices, h]
  · intro h
    simp [set_vertices, h]

/-- C10 (witness): setting vertices of the same shape `[2, 3]` updates the
points and leaves the connectivity untouched. -/
theorem lines_vertices_spec_witness :
    ([2, 3] : List Nat) = samplePlot.shape ∧
    ((set_vertices samplePlot [2, 3] [9, 9, 9, 8, 8, 8]).polydata.lines =
       samplePlot.polydata.lines ∧
     (set_vertices samplePlot [2, 3] [9, 9, 9, 8, 8, 8]).shape = samplePlot.shape) :=
  ⟨rfl, (lines_vertices_spec samplePlot [2, 3] [9, 9, 9, 8, 8, 8]).2.1 rfl⟩
